import Mathlib

/-!
Shallow embedding of the chat/agent demo repository.

The `message` table and the queries the routers issue against it
(`orderBy(createdAt)`, `orderBy(desc(createdAt)).limit(10)`, `delete`)
are modelled over an insertion-ordered row list; the two `ORDER BY`
clauses are modelled as stable sorts on the stored rows (rows that tie
on `createdAt` keep insertion order).  The plain chat router
(`chatRouter.sendChat` / `getMessages` / `clearMessages`), the agent
router (`agentRouter.chat`) and the tool adapters
(`createUserTools` / `createPostTools`) are translated step by step;
the hosted model / agent runtime is an oracle parameter.
-/

/-- One row of the `message` table: identity `id`, `role` varchar,
`content` text, server-assigned `createdAt` (modelled as a `Nat` tick). -/
structure Message where
  id : Nat
  role : String
  content : String
  createdAt : Nat
deriving DecidableEq, Repr

/-- The message store: rows in insertion order plus the identity counter. -/
structure DB where
  rows : List Message
  nextId : Nat
deriving DecidableEq, Repr

/-- `db.insert(Message).values({role, content}).returning()`: the server
assigns the next identity value and the current time. -/
def insertMessage (db : DB) (role content : String) (now : Nat) : Message × DB :=
  let m : Message := { id := db.nextId, role := role, content := content, createdAt := now }
  (m, { rows := db.rows ++ [m], nextId := db.nextId + 1 })

/-- `ORDER BY createdAt` (ascending) comparison. -/
def createdLe (a b : Message) : Prop := a.createdAt ≤ b.createdAt

/-- `ORDER BY createdAt DESC` comparison. -/
def createdGe (a b : Message) : Prop := b.createdAt ≤ a.createdAt

instance : DecidableRel createdLe :=
  fun a b => inferInstanceAs (Decidable (a.createdAt ≤ b.createdAt))

instance : DecidableRel createdGe :=
  fun a b => inferInstanceAs (Decidable (b.createdAt ≤ a.createdAt))

instance : IsTotal Message createdLe := ⟨fun a b => Nat.le_total a.createdAt b.createdAt⟩

instance : IsTotal Message createdGe := ⟨fun a b => Nat.le_total b.createdAt a.createdAt⟩

instance : IsTrans Message createdLe := ⟨fun _ _ _ h h' => Nat.le_trans h h'⟩

instance : IsTrans Message createdGe := ⟨fun _ _ _ h h' => Nat.le_trans h' h⟩

/-- `getMessages`: `db.select().from(Message).orderBy(Message.createdAt)` —
all rows, oldest first. -/
def getMessages (db : DB) : List Message :=
  List.insertionSort createdLe db.rows

/-- `db.select().from(Message).orderBy(desc(Message.createdAt)).limit(n)` —
at most `n` rows, most recent first. -/
def recentMessages (db : DB) (n : Nat) : List Message :=
  (List.insertionSort createdGe db.rows).take n

/-- `clearMessages`: `db.delete(Message)` — removes every row
(the identity sequence is not reset by a SQL `DELETE`). -/
def clearMessages (db : DB) : DB :=
  { db with rows := [] }

/-- Zod validation `z.string().min(1).max(10000)` on the chat content. -/
def validContent (s : String) : Prop := 1 ≤ s.length ∧ s.length ≤ 10000

instance : DecidablePred validContent :=
  fun s => inferInstanceAs (Decidable (1 ≤ s.length ∧ s.length ≤ 10000))

/-- The persona prompt table `SYSTEM_PROMPTS` of the plain chat router,
as a key-to-prompt association list. -/
def SYSTEM_PROMPTS : List (String × String) :=
  [("default",
    "You are a friendly and helpful AI assistant. Please answer questions in a concise and clear manner."),
   ("luffy",
    "You are Monkey D. Luffy, the main character from One Piece and captain of the Straw Hat Pirates.\n\nPersonality traits:\n- Energetic, optimistic, and never give up\n- Speak simply and directly, often say \"I'm gonna be King of the Pirates!\"\n- Love eating meat, especially huge chunks of meat\n- Extremely loyal to friends, would do anything for crewmates\n- A bit naive but very brave\n- Use catchphrases like \"Hehe\", \"That's awesome!\", \"That's interesting!\"\n\nSpeaking style:\n- Use simple, enthusiastic language\n- Often mention adventure, friends, and dreams\n- Show great enthusiasm for food (especially meat)\n- When facing difficulties, say \"I'll never give up!\"\n\nPlease answer user questions in Luffy's tone and style."),
   ("ironman",
    "You are Tony Stark (Iron Man), genius inventor and superhero.\n\nPersonality traits:\n- Intelligent, confident, a bit narcissistic\n- Like to respond with humor and sarcasm\n- Often mention technology and inventions\n- Speak with a bit of arrogance but very charming\n\nSpeaking style:\n- Use smart, witty language\n- Occasionally joke or self-deprecate\n- Mention Stark Industries and technology\n- Call others \"kid\", \"buddy\", etc."),
   ("goku",
    "You are Son Goku, the main character from Dragon Ball and Super Saiyan warrior.\n\nPersonality traits:\n- Love fighting and always want to get stronger\n- Simple, kind, optimistic\n- Love eating a lot\n- Passionate about training and fighting\n\nSpeaking style:\n- Use simple, direct language\n- Often mention training, getting stronger, fighting\n- Show great interest in food\n- Use catchphrases like \"Yoshi\", \"Not bad!\"")]

/-- The keys of the `z.enum(["default", "luffy", "ironman", "goku"])`
input validator for the optional `character` parameter. -/
def characterKeys : List String := ["default", "luffy", "ironman", "goku"]

/-- Input validation of the `character` key against the enumerated set. -/
def validCharacter (c : String) : Bool := characterKeys.contains c

/-- `SYSTEM_PROMPTS[key]`: look the persona key up in the prompt table. -/
def systemPromptFor (key : String) : Option String :=
  (SYSTEM_PROMPTS.find? (fun p => p.1 = key)).map (fun p => p.2)

/-- The request the plain chat router hands to `generateText`:
a system prompt plus (role, content) pairs. -/
structure GenRequest where
  system : String
  messages : List (String × String)
deriving DecidableEq, Repr

/-- Failure taxonomy of a chat mutation: input validation rejection
(raised by zod before the handler body runs) or a failure of the
upstream model/agent call. -/
inductive ChatError
  | validation
  | upstream
deriving DecidableEq, Repr

/-- Successful response of `sendChat`: the two persisted rows. -/
structure ChatReply where
  userMessage : Message
  assistantMessage : Message
deriving DecidableEq, Repr

deriving instance DecidableEq for Except

/-- Result of a chat mutation together with the message store it leaves
behind (the store survives a thrown error, so it is carried in both
branches). -/
structure ChatOutcome where
  result : Except ChatError ChatReply
  db : DB
deriving DecidableEq, Repr

/-- The context window of `sendChat`: the 10 most recent rows, reversed
to chronological order and projected to (role, content) pairs, exactly as
`history.reverse()` and `messages.map(...)` do. -/
def chatWindow (db : DB) : List (String × String) :=
  (recentMessages db 10).reverse.map (fun m => (m.role, m.content))

/-- The `generateText` request built by `sendChat` after the user turn
was inserted (`db1` is the store holding the new user row). -/
def chatRequest (db1 : DB) (character : String) : GenRequest :=
  { system := (systemPromptFor character).getD ""
    messages := chatWindow db1 }

/-- `chatRouter.sendChat`, parametrised by the Gemini `generateText`
call as an oracle `gen`.  Steps: zod validation of `content`
(1..10000 chars) and of the optional `character` enum (defaulted to
`"default"`), insert the user row, fetch the last 10 rows most recent
first, reverse, call the model, insert the assistant row. -/
def sendChat (gen : GenRequest → Except Unit String) (db : DB) (content : String)
    (character : Option String) (tUser tAssistant : Nat) : ChatOutcome :=
  if ¬ validContent content then ⟨.error .validation, db⟩
  else
    let ch := character.getD "default"
    if ¬ validCharacter ch then ⟨.error .validation, db⟩
    else
      let r1 := insertMessage db "user" content tUser
      match gen (chatRequest r1.2 ch) with
      | .error _ => ⟨.error .upstream, r1.2⟩
      | .ok text =>
        let r2 := insertMessage r1.2 "assistant" text tAssistant
        ⟨.ok ⟨r1.1, r2.1⟩, r2.2⟩

/-- JavaScript `a || b` on strings: the empty string is falsy. -/
def jsOrStr (a b : String) : String := if a = "" then b else a

/-- One entry of a LangChain message's `tool_calls` array:
`{ name?, args? }`. -/
structure AgentToolCall where
  name : Option String
  args : List (String × String)
deriving DecidableEq, Repr

/-- One element of an array-valued LangChain message content:
either a plain string or an object with an optional `text` field. -/
inductive ContentPart
  | str (s : String)
  | obj (text : Option String)
deriving DecidableEq, Repr

/-- The `content` of a LangChain result message: a string or an array
of parts. -/
inductive MsgContent
  | str (s : String)
  | parts (l : List ContentPart)
deriving DecidableEq, Repr

/-- A message of the LangChain agent result: its `content` and its
optional `tool_calls` array. -/
structure AgentMsg where
  content : MsgContent
  tool_calls : Option (List AgentToolCall)
deriving DecidableEq, Repr

/-- The value returned by `agent.invoke`: `{ messages: [...] }`. -/
structure AgentResult where
  messages : List AgentMsg
deriving DecidableEq, Repr

/-- `typeof c === "string" ? c : (c.text || "")` on one content part. -/
def partText : ContentPart → String
  | .str s => s
  | .obj t => jsOrStr (t.getD "") ""

/-- Step 8 of `agentRouter.chat`: extract the AI response text from the
last result message (empty string when there is no last message, when
its content has an unexpected shape, or when the text is empty). -/
def extractAiResponse (result : AgentResult) : String :=
  match result.messages.getLast? with
  | none => jsOrStr "" ""
  | some lastMessage =>
    match lastMessage.content with
    | .str s => jsOrStr s ""
    | .parts l => jsOrStr (String.join (l.map partText)) ""

/-- One entry of the `toolCalls` trace returned to the caller. -/
structure ToolCallEntry where
  toolName : String
  input : List (String × String)
  output : List (String × String)
  timestamp : String
  success : Bool
deriving DecidableEq, Repr

/-- Step 9 of `agentRouter.chat`: walk the result messages and push one
entry per issued tool call; `output` is left as the empty object
(the tool output lives in separate messages and is never copied),
`success` is hard-coded `true` and `timestamp` is the current time. -/
def extractToolCalls (result : AgentResult) (nowIso : String) : List ToolCallEntry :=
  result.messages.flatMap (fun msg =>
    match msg.tool_calls with
    | none => []
    | some msgToolCalls =>
      msgToolCalls.map (fun toolCall =>
        { toolName := jsOrStr (toolCall.name.getD "") "unknown"
          input := toolCall.args
          output := []
          timestamp := nowIso
          success := true }))

/-- The agent system prompt of `agentRouter.chat`. -/
def AGENT_SYSTEM_PROMPT : String :=
  "You are an AI assistant that helps manage a blog platform with users and posts.\n\nYou have access to tools that can:\n- User management: create users, get user details, list all users, count total users\n- Post management: create posts for users, get posts by user, list all posts\n\nWhen users ask you to perform actions:\n1. Use the appropriate tools to complete the task\n2. Be conversational and friendly in your responses\n3. Provide clear confirmation of what you've done with specific details (IDs, names)\n4. If you need information (like a user ID), first use list or get tools to find it\n5. When creating mock data, use realistic names, emails, and content\n\nFor example:\n- \"create some mock users\" → Use create_user tool multiple times with realistic data, then confirm what you created\n- \"create posts for user 1\" → Use create_post tool with userId=1, confirm with post titles and IDs\n- \"how many users do we have?\" → Use count_users tool and provide a friendly response\n\nAlways confirm successful operations and provide relevant details. Be educational and explain what you're doing since this is a tutorial demonstration!"

/-- Step 3 of `agentRouter.chat`: the conversation handed to the agent —
the reversed 10-row window mapped to role/content pairs, with the current
user message appended once more at the end. -/
def agentConversation (db1 : DB) (message : String) : List (String × String) :=
  (recentMessages db1 10).reverse.map
    (fun msg => (if msg.role = "user" then "user" else "assistant", msg.content))
  ++ [("user", message)]

/-- Successful response of `agentRouter.chat`: the two persisted rows and
the optional tool-call trace (`undefined` unless at least one call). -/
structure AgentChatReply where
  userMessage : Message
  assistantMessage : Message
  toolCalls : Option (List ToolCallEntry)
deriving DecidableEq, Repr

/-- Result of `agentRouter.chat` with the store it leaves behind. -/
structure AgentChatOutcome where
  result : Except ChatError AgentChatReply
  db : DB
deriving DecidableEq, Repr

/-- `agentRouter.chat`, parametrised by the LangChain `agent.invoke`
call as an oracle taking the system prompt and the conversation.
Steps: zod validation of `message` (1..10000 chars), insert the user
row, fetch the last 10 rows most recent first, reverse, append the
current message, invoke the agent, extract response text and the
tool-call trace, insert the assistant row. -/
def agentChat (agent : String → List (String × String) → Except Unit AgentResult)
    (db : DB) (message : String) (tUser tAssistant : Nat) (nowIso : String) :
    AgentChatOutcome :=
  if ¬ validContent message then ⟨.error .validation, db⟩
  else
    let r1 := insertMessage db "user" message tUser
    match agent AGENT_SYSTEM_PROMPT (agentConversation r1.2 message) with
    | .error _ => ⟨.error .upstream, r1.2⟩
    | .ok result =>
      let aiResponse := extractAiResponse result
      let toolCalls := extractToolCalls result nowIso
      let r2 := insertMessage r1.2 "assistant" aiResponse tAssistant
      ⟨.ok ⟨r1.1, r2.1, if toolCalls.length > 0 then some toolCalls else none⟩, r2.2⟩

/-- One row of the `user` table. -/
structure UserRow where
  id : Nat
  name : String
  email : String
  bio : Option String
  createdAt : Nat
deriving DecidableEq, Repr

/-- One row of the `post` table. -/
structure PostRow where
  id : Nat
  userId : Nat
  title : String
  content : String
  published : Bool
  createdAt : Nat
deriving DecidableEq, Repr

/-- The entity store backing the tool adapters. -/
structure EntityDB where
  users : List UserRow
  posts : List PostRow
deriving DecidableEq, Repr

/-- `ORDER BY createdAt DESC` on users. -/
def userDesc (a b : UserRow) : Prop := b.createdAt ≤ a.createdAt

instance : DecidableRel userDesc :=
  fun a b => inferInstanceAs (Decidable (b.createdAt ≤ a.createdAt))

/-- `ORDER BY createdAt DESC` on posts. -/
def postDesc (a b : PostRow) : Prop := b.createdAt ≤ a.createdAt

instance : DecidableRel postDesc :=
  fun a b => inferInstanceAs (Decidable (b.createdAt ≤ a.createdAt))

/-- `user.list`: `findMany({ orderBy: desc(User.createdAt) })`. -/
def userList (edb : EntityDB) : List UserRow :=
  List.insertionSort userDesc edb.users

/-- `user.getById`: `findFirst({ where: eq(User.id, id), with: { posts } })` —
the user row together with its posts, or a miss. -/
def userGetById (edb : EntityDB) (id : Nat) : Option (UserRow × List PostRow) :=
  (edb.users.find? (fun u => u.id == id)).map
    (fun u => (u, edb.posts.filter (fun p => p.userId == u.id)))

/-- `post.listByUser`: `findMany({ where: eq(Post.userId, userId),
orderBy: desc(Post.createdAt) })`. -/
def postListByUser (edb : EntityDB) (userId : Nat) : List PostRow :=
  List.insertionSort postDesc (edb.posts.filter (fun p => p.userId == userId))

/-- `post.list` called by the tool with no input: `findMany` with the
default limit of 50, newest first, with the author loaded. -/
def postList (edb : EntityDB) : List PostRow :=
  (List.insertionSort postDesc edb.posts).take 50

/-- A JSON string literal (quotes around the text; embedded quotes are
irrelevant to every claim, so the body is kept verbatim). -/
def jsonStr (s : String) : String := "\"" ++ s ++ "\""

/-- A JSON object from field/value pairs, `JSON.stringify`-style. -/
def jsonObj (fields : List (String × String)) : String :=
  "\x7b" ++ String.intercalate ", " (fields.map (fun f => jsonStr f.1 ++ ": " ++ f.2)) ++ "\x7d"

/-- A JSON array from already-serialised elements. -/
def jsonArr (elems : List String) : String :=
  "[" ++ String.intercalate ", " elems ++ "]"

/-- Serialisation of an optional string field (`null` when absent). -/
def jsonOptStr : Option String → String
  | none => "null"
  | some s => jsonStr s

/-- The `list_users` adapter: explicit no-results sentence on an empty
result set, otherwise a JSON rendering of id/name/email. -/
def listUsersTool (edb : EntityDB) : String :=
  let users := userList edb
  if users.length = 0 then
    "No users found in the database."
  else
    jsonArr (users.map (fun u =>
      jsonObj [("id", toString u.id), ("name", jsonStr u.name), ("email", jsonStr u.email)]))

/-- The `get_user` adapter: not-found sentence on a miss, otherwise a
JSON rendering including the post count. -/
def getUserTool (edb : EntityDB) (id : Nat) : String :=
  match userGetById edb id with
  | none => s!"User with ID {id} not found"
  | some u =>
    jsonObj [("id", toString u.1.id), ("name", jsonStr u.1.name),
             ("email", jsonStr u.1.email), ("bio", jsonOptStr u.1.bio),
             ("postCount", toString u.2.length), ("createdAt", toString u.1.createdAt)]

/-- The `count_users` adapter. -/
def countUsersTool (edb : EntityDB) : String :=
  s!"Total users in database: {edb.users.length}"

/-- The `get_posts_by_user` adapter: explicit "has not created any
posts" sentence when the user has none. -/
def getPostsByUserTool (edb : EntityDB) (userId : Nat) : String :=
  let posts := postListByUser edb userId
  if posts.length = 0 then
    s!"User {userId} has not created any posts yet."
  else
    jsonArr (posts.map (fun p =>
      jsonObj [("id", toString p.id), ("title", jsonStr p.title),
               ("published", toString p.published),
               ("contentPreview", jsonStr (p.content.take 100 ++ "...")),
               ("createdAt", toString p.createdAt)]))

/-- The `list_posts` adapter: explicit no-results sentence on an empty
result set, otherwise a JSON rendering including the author's name
(`"Unknown"` when the author row is missing). -/
def listPostsTool (edb : EntityDB) : String :=
  let posts := postList edb
  if posts.length = 0 then
    "No posts found in the database."
  else
    jsonArr (posts.map (fun p =>
      jsonObj [("id", toString p.id), ("title", jsonStr p.title),
               ("authorName",
                 jsonStr (((edb.users.find? (fun u => u.id == p.userId)).map
                   (fun u => u.name)).getD "Unknown")),
               ("published", toString p.published),
               ("createdAt", toString p.createdAt)]))

/-! ### Concrete states and oracles used to instantiate the theorems -/

/-- An empty message store. -/
def db0 : DB := ⟨[], 0⟩

/-- A store whose two rows tie on `createdAt`. -/
def dbTie : DB := ⟨[⟨0, "user", "a", 5⟩, ⟨1, "assistant", "b", 5⟩], 2⟩

/-- A store whose two rows have distinct `createdAt` values. -/
def dbTwo : DB := ⟨[⟨0, "user", "a", 1⟩, ⟨1, "assistant", "b", 2⟩], 2⟩

/-- A model oracle that always answers. -/
def genStub : GenRequest → Except Unit String := fun _ => .ok "Hi there"

/-- A model oracle that always throws. -/
def genFail : GenRequest → Except Unit String := fun _ => .error ()

/-- An agent result carrying one issued tool call and a final text. -/
def agentResult1 : AgentResult :=
  ⟨[⟨.str "", some [⟨some "create_user", [("name", "Ada"), ("email", "ada@example.com")]⟩]⟩,
    ⟨.str "Created user Ada (ID: 1)", none⟩]⟩

/-- An agent oracle that always returns `agentResult1`. -/
def agentStub : String → List (String × String) → Except Unit AgentResult :=
  fun _ _ => .ok agentResult1

/-- An agent result whose final message produced no content at all. -/
def agentResultEmpty : AgentResult := ⟨[⟨.parts [.obj none], none⟩]⟩

/-- An agent oracle that succeeds but produces empty text. -/
def agentStubEmpty : String → List (String × String) → Except Unit AgentResult :=
  fun _ _ => .ok agentResultEmpty

/-- A chat content of exactly 10000 characters. -/
def content10000 : String := String.mk (List.replicate 10000 'a')

/-- A chat content of 10001 characters. -/
def content10001 : String := String.mk (List.replicate 10001 'a')

/-- An empty entity store. -/
def edb0 : EntityDB := ⟨[], []⟩

/-! ### Helper lemmas about the stable-sort model of the store queries -/

theorem orderedInsert_asc_append_max (x m : Message) (s : List Message)
    (h : x.createdAt ≤ m.createdAt) :
    List.orderedInsert createdLe x (s ++ [m]) = List.orderedInsert createdLe x s ++ [m] := by
  induction s with
  | nil => simp [List.orderedInsert, createdLe, h]
  | cons y s ih =>
    by_cases hxy : createdLe x y
    · simp [List.orderedInsert, hxy]
    · simp [List.orderedInsert, hxy, ih]

theorem insertionSort_asc_append_max (rows : List Message) (m : Message)
    (h : ∀ x ∈ rows, x.createdAt ≤ m.createdAt) :
    List.insertionSort createdLe (rows ++ [m]) = List.insertionSort createdLe rows ++ [m] := by
  induction rows with
  | nil => simp [List.insertionSort]
  | cons x rows ih =>
    simp only [List.cons_append, List.insertionSort, List.append_eq]
    rw [ih (fun y hy => h y (List.mem_cons_of_mem x hy))]
    exact orderedInsert_asc_append_max x m _ (h x (List.mem_cons_self x rows))

theorem orderedInsert_desc_cons_strictMax (x m : Message) (l : List Message)
    (h : x.createdAt < m.createdAt) :
    List.orderedInsert createdGe x (m :: l) = m :: List.orderedInsert createdGe x l := by
  have hge : ¬ createdGe x m := by
    simp only [createdGe]
    omega
  simp [List.orderedInsert, hge]

theorem insertionSort_desc_append_strictMax (rows : List Message) (m : Message)
    (h : ∀ x ∈ rows, x.createdAt < m.createdAt) :
    List.insertionSort createdGe (rows ++ [m]) = m :: List.insertionSort createdGe rows := by
  induction rows with
  | nil => simp [List.insertionSort]
  | cons x rows ih =>
    simp only [List.cons_append, List.insertionSort, List.append_eq]
    rw [ih (fun y hy => h y (List.mem_cons_of_mem x hy))]
    exact orderedInsert_desc_cons_strictMax x m _ (h x (List.mem_cons_self x rows))

theorem getMessages_insert_max (db : DB) (role content : String) (now : Nat)
    (h : ∀ x ∈ db.rows, x.createdAt ≤ now) :
    getMessages (insertMessage db role content now).2 =
      getMessages db ++ [(insertMessage db role content now).1] := by
  simp only [insertMessage, getMessages]
  exact insertionSort_asc_append_max db.rows _ h

/-- Strictly-more-recent relation; antisymmetric because it is asymmetric. -/
def createdGt (a b : Message) : Prop := b.createdAt < a.createdAt

instance : IsAntisymm Message createdGt :=
  ⟨fun _ _ h h' => absurd h' (Nat.lt_asymm h)⟩

theorem sortDesc_eq_reverse_sortAsc (rows : List Message)
    (hdist : rows.Pairwise (fun a b => a.createdAt ≠ b.createdAt)) :
    List.insertionSort createdGe rows = (List.insertionSort createdLe rows).reverse := by
  apply List.eq_of_perm_of_sorted (r := createdGt)
  · exact (List.perm_insertionSort createdGe rows).trans
      ((List.perm_insertionSort createdLe rows).symm.trans (List.reverse_perm _).symm)
  · have hs : (List.insertionSort createdGe rows).Pairwise createdGe :=
      List.sorted_insertionSort createdGe rows
    have hne : (List.insertionSort createdGe rows).Pairwise
        (fun a b => a.createdAt ≠ b.createdAt) :=
      (((List.perm_insertionSort createdGe rows)).pairwise_iff (fun h => Ne.symm h)).mpr hdist
    exact List.Pairwise.imp₂ (fun a b hge hab => Nat.lt_of_le_of_ne hge (Ne.symm hab)) hs hne
  · have hs : (List.insertionSort createdLe rows).Pairwise createdLe :=
      List.sorted_insertionSort createdLe rows
    have hne : (List.insertionSort createdLe rows).Pairwise
        (fun a b => a.createdAt ≠ b.createdAt) :=
      (((List.perm_insertionSort createdLe rows)).pairwise_iff (fun h => Ne.symm h)).mpr hdist
    have hlt : (List.insertionSort createdLe rows).Pairwise (fun a b => createdGt b a) :=
      List.Pairwise.imp₂ (fun a b hle hab => Nat.lt_of_le_of_ne hle hab) hs hne
    exact List.pairwise_reverse.mpr hlt

/-! ### Claim theorems -/

/-- C10: `clearMessages` deletes every row unconditionally, so a
subsequent `getMessages` returns the empty sequence, and it is
idempotent — clearing an already-cleared (hence empty) store succeeds
and changes nothing. -/
theorem clearMessages_deletes_all_and_idempotent (db : DB) :
    getMessages (clearMessages db) = [] ∧
    clearMessages (clearMessages db) = clearMessages db :=
  ⟨rfl, rfl⟩

/-- C4: a chat content of length 0 or above 10000 is rejected with a
validation error before any store mutation (the store comes back
unchanged, for every model oracle), while a content of length exactly
10000 passes validation whenever the character key does. -/
theorem sendChat_content_length_validation
    (gen : GenRequest → Except Unit String) (db : DB) (content : String)
    (character : Option String) (tUser tAssistant : Nat) :
    (content.length = 0 ∨ 10000 < content.length →
      sendChat gen db content character tUser tAssistant = ⟨.error .validation, db⟩) ∧
    (content.length = 10000 → validCharacter (character.getD "default") = true →
      (sendChat gen db content character tUser tAssistant).result ≠
        Except.error ChatError.validation) := by
  constructor
  · intro h
    have hv : ¬ validContent content := by
      simp only [validContent]
      omega
    simp [sendChat, hv]
  · intro h hch
    have hv : validContent content := by
      simp only [validContent]
      omega
    cases hgen : gen (chatRequest (insertMessage db "user" content tUser).2
        (character.getD "default")) <;>
      simp [sendChat, hv, hch, hgen]

/-- C4 witness: length 10001 is rejected with the store untouched;
length 10000 is not rejected by validation. -/
theorem sendChat_content_length_validation_witness :
    sendChat genStub db0 content10001 none 0 1 = ⟨.error .validation, db0⟩ ∧
    (sendChat genStub db0 content10000 none 0 1).result ≠
      Except.error ChatError.validation :=
  ⟨(sendChat_content_length_validation genStub db0 content10001 none 0 1).1
      (Or.inr (by simp only [content10001, String.length_mk, List.length_replicate]; omega)),
   (sendChat_content_length_validation genStub db0 content10000 none 0 1).2
      (by simp only [content10000, String.length_mk, List.length_replicate]) (by decide)⟩

/-- C8: a character key outside the enumerated set is rejected by input
validation before any store mutation and for every model oracle; an
omitted key behaves exactly like the explicit `"default"` key; a key the
prompt table maps to a prompt makes that prompt the system prompt of the
generated request; and the prompt-table keys are exactly the enum keys. -/
theorem sendChat_character_key_validation
    (gen : GenRequest → Except Unit String) (db : DB) (content : String)
    (tUser tAssistant : Nat) :
    (∀ k, validCharacter k = false →
      sendChat gen db content (some k) tUser tAssistant = ⟨.error .validation, db⟩) ∧
    sendChat gen db content none tUser tAssistant =
      sendChat gen db content (some "default") tUser tAssistant ∧
    (∀ (db1 : DB) (k p : String), systemPromptFor k = some p →
      (chatRequest db1 k).system = p) ∧
    SYSTEM_PROMPTS.map Prod.fst = characterKeys := by
  refine ⟨?_, rfl, ?_, rfl⟩
  · intro k hk
    by_cases hv : validContent content
    · simp [sendChat, hv, hk]
    · simp [sendChat, hv]
  · intro db1 k p hp
    simp [chatRequest, hp]

/-- C8 witness: the unknown key "naruto" is rejected with the store
untouched, and the "luffy" key selects exactly the luffy prompt-table
entry as the system prompt. -/
theorem sendChat_character_key_validation_witness :
    sendChat genStub db0 "Hello" (some "naruto") 0 1 = ⟨.error .validation, db0⟩ ∧
    (chatRequest db0 "luffy").system = (SYSTEM_PROMPTS.get ⟨1, by decide⟩).2 :=
  ⟨(sendChat_character_key_validation genStub db0 "Hello" 0 1).1 "naruto" (by decide),
   (sendChat_character_key_validation genStub db0 "Hello" 0 1).2.2.1 db0 "luffy"
      (SYSTEM_PROMPTS.get ⟨1, by decide⟩).2 rfl⟩

/-- C9: the tool adapters absorb not-found and empty-result conditions
into explicit descriptive sentences instead of empty structures or
thrown errors: `list_users` and `list_posts` on an empty store,
`get_user` on a missing id, `get_posts_by_user` on a user with no posts. -/
theorem tool_adapters_absorb_not_found (edb : EntityDB) (id userId : Nat) :
    (edb.users = [] → listUsersTool edb = "No users found in the database.") ∧
    (edb.posts = [] → listPostsTool edb = "No posts found in the database.") ∧
    ((∀ u ∈ edb.users, u.id ≠ id) →
      getUserTool edb id = s!"User with ID {id} not found") ∧
    ((∀ p ∈ edb.posts, p.userId ≠ userId) →
      getPostsByUserTool edb userId = s!"User {userId} has not created any posts yet.") := by
  refine ⟨?_, ?_, ?_, ?_⟩
  · intro h
    simp [listUsersTool, userList, h, List.insertionSort]
  · intro h
    simp [listPostsTool, postList, h, List.insertionSort]
  · intro h
    have hf : edb.users.find? (fun u => u.id == id) = none :=
      List.find?_eq_none.mpr (fun u hu => by simp [h u hu])
    simp [getUserTool, userGetById, hf]
  · intro h
    have hf : edb.posts.filter (fun p => p.userId == userId) = [] :=
      List.filter_eq_nil_iff.mpr (fun p hp => by simp [h p hp])
    simp [getPostsByUserTool, postListByUser, hf, List.insertionSort]

/-- C9 witness: on the empty entity store, the four adapters answer the
four descriptive sentences. -/
theorem tool_adapters_absorb_not_found_witness :
    listUsersTool edb0 = "No users found in the database." ∧
    listPostsTool edb0 = "No posts found in the database." ∧
    getUserTool edb0 5 = s!"User with ID {(5 : Nat)} not found" ∧
    getPostsByUserTool edb0 7 = s!"User {(7 : Nat)} has not created any posts yet." :=
  ⟨(tool_adapters_absorb_not_found edb0 5 7).1 rfl,
   (tool_adapters_absorb_not_found edb0 5 7).2.1 rfl,
   (tool_adapters_absorb_not_found edb0 5 7).2.2.1 (by simp [edb0]),
   (tool_adapters_absorb_not_found edb0 5 7).2.2.2 (by simp [edb0])⟩

/-- C3 counterexample: with two rows tying on `createdAt`, both `ORDER BY`
directions surface the tied rows in the same relative order, so the
most-recent-first sequence is not the reverse of the oldest-first one. -/
theorem recent_not_reverse_of_all_on_tie :
    recentMessages dbTie 2 ≠ (getMessages dbTie).reverse := by
  decide

/-- C3 (amended): `recent(n)` returns at most `n` rows sorted
most-recent-first, `all()` returns the rows sorted oldest-first, and the
two sequences are reverses of each other over the same row set whenever
no two rows share a `createdAt` timestamp (with ties the reversal can
fail, as the counterexample shows). -/
theorem recent_all_order_spec (db : DB) (n : Nat) :
    (recentMessages db n).length ≤ n ∧
    (recentMessages db n).Pairwise createdGe ∧
    (getMessages db).Pairwise createdLe ∧
    (getMessages db).Perm db.rows ∧
    (db.rows.Pairwise (fun a b => a.createdAt ≠ b.createdAt) →
      db.rows.length ≤ n →
      recentMessages db n = (getMessages db).reverse) := by
  refine ⟨List.length_take_le n _, ?_, List.sorted_insertionSort createdLe db.rows,
    List.perm_insertionSort createdLe db.rows, ?_⟩
  · exact List.Pairwise.sublist (List.take_sublist n _)
      (List.sorted_insertionSort createdGe db.rows)
  · intro hdist hlen
    have hrev : List.insertionSort createdGe db.rows = (getMessages db).reverse :=
      sortDesc_eq_reverse_sortAsc db.rows hdist
    have hl : (List.insertionSort createdGe db.rows).length ≤ n := by
      rw [(List.perm_insertionSort createdGe db.rows).length_eq]
      exact hlen
    rw [recentMessages, List.take_of_length_le hl, hrev]

/-- C3 witness for the amended theorem: on a two-row store with distinct
timestamps, `recent(2)` is exactly the reverse of `all()`. -/
theorem recent_all_order_spec_witness :
    (recentMessages dbTwo 2).length ≤ 2 ∧
    recentMessages dbTwo 2 = (getMessages dbTwo).reverse :=
  ⟨(recent_all_order_spec dbTwo 2).1,
   (recent_all_order_spec dbTwo 2).2.2.2.2 (by decide) (by decide)⟩

/-- C1: when the model call throws, `sendChat` fails with the upstream
error and the store it leaves behind holds the user turn as its only new
row — no assistant row — so a subsequent `getMessages` ends with the
user's message. -/
theorem sendChat_upstream_failure_keeps_user_turn
    (gen : GenRequest → Except Unit String) (db : DB) (content : String)
    (character : Option String) (tUser tAssistant : Nat)
    (hc : validContent content)
    (hch : validCharacter (character.getD "default") = true)
    (hgen : gen (chatRequest (insertMessage db "user" content tUser).2
        (character.getD "default")) = .error ())
    (hts : ∀ m ∈ db.rows, m.createdAt ≤ tUser) :
    sendChat gen db content character tUser tAssistant =
      ⟨.error .upstream, (insertMessage db "user" content tUser).2⟩ ∧
    getMessages (insertMessage db "user" content tUser).2 =
      getMessages db ++ [⟨db.nextId, "user", content, tUser⟩] ∧
    (getMessages (insertMessage db "user" content tUser).2).getLast? =
      some ⟨db.nextId, "user", content, tUser⟩ := by
  have hmax := getMessages_insert_max db "user" content tUser hts
  refine ⟨?_, hmax, ?_⟩
  · simp [sendChat, hc, hch, hgen]
  · rw [hmax]
    exact List.getLast?_concat _

/-- C1 witness: on the empty store with a throwing oracle, the chat call
fails upstream and `getMessages` ends with the user row. -/
theorem sendChat_upstream_failure_keeps_user_turn_witness :
    sendChat genFail db0 "Hello" none 0 1 =
      ⟨.error .upstream, (insertMessage db0 "user" "Hello" 0).2⟩ ∧
    getMessages (insertMessage db0 "user" "Hello" 0).2 =
      getMessages db0 ++ [⟨0, "user", "Hello", 0⟩] ∧
    (getMessages (insertMessage db0 "user" "Hello" 0).2).getLast? =
      some ⟨0, "user", "Hello", 0⟩ :=
  sendChat_upstream_failure_keeps_user_turn genFail db0 "Hello" none 0 1
    (by decide) (by decide) rfl (by simp [db0])

/-- C2: the context window is the 10-row most-recent-first query result
reversed to chronological order — it never exceeds 10 entries whatever
the stored row count, it is exactly `min 10` rows, it is sorted
most-recent-first before and oldest-first after the reversal, and both
chat procedures consult the model oracle only through that window. -/
theorem chat_context_window_fixed_10 (db : DB) :
    (chatWindow db).length ≤ 10 ∧
    (recentMessages db 10).length = min 10 db.rows.length ∧
    (recentMessages db 10).Pairwise createdGe ∧
    ((recentMessages db 10).reverse).Pairwise createdLe ∧
    chatWindow db = ((recentMessages db 10).reverse).map (fun m => (m.role, m.content)) ∧
    (∀ gen1 gen2 content character tUser tAssistant,
      gen1 (chatRequest (insertMessage db "user" content tUser).2 (character.getD "default")) =
        gen2 (chatRequest (insertMessage db "user" content tUser).2 (character.getD "default")) →
      sendChat gen1 db content character tUser tAssistant =
        sendChat gen2 db content character tUser tAssistant) ∧
    (∀ agent1 agent2 message tUser tAssistant nowIso,
      agent1 AGENT_SYSTEM_PROMPT
          (agentConversation (insertMessage db "user" message tUser).2 message) =
        agent2 AGENT_SYSTEM_PROMPT
          (agentConversation (insertMessage db "user" message tUser).2 message) →
      agentChat agent1 db message tUser tAssistant nowIso =
        agentChat agent2 db message tUser tAssistant nowIso) := by
  have hdesc : (recentMessages db 10).Pairwise createdGe :=
    List.Pairwise.sublist (List.take_sublist 10 _)
      (List.sorted_insertionSort createdGe db.rows)
  refine ⟨?_, ?_, hdesc, ?_, rfl, ?_, ?_⟩
  · simp [chatWindow, recentMessages, List.length_take]
  · simp [recentMessages, List.length_take,
      (List.perm_insertionSort createdGe db.rows).length_eq]
  · exact List.pairwise_reverse.mpr (hdesc.imp (fun h => h))
  · intro gen1 gen2 content character tUser tAssistant h
    by_cases hv : validContent content
    · cases hch : validCharacter (character.getD "default") <;>
        simp [sendChat, hv, hch, h]
    · simp [sendChat, hv]
  · intro agent1 agent2 message tUser tAssistant nowIso h
    by_cases hv : validContent message
    · simp [agentChat, hv, h]
    · simp [agentChat, hv]

/-- C2 witness: the window is bounded on a concrete store and two
oracles agreeing on the generated request produce identical outcomes. -/
theorem chat_context_window_fixed_10_witness :
    (chatWindow dbTwo).length ≤ 10 ∧
    (recentMessages dbTwo 10).length = min 10 dbTwo.rows.length ∧
    sendChat genStub dbTwo "Hello" none 3 4 = sendChat genStub dbTwo "Hello" none 3 4 :=
  ⟨(chat_context_window_fixed_10 dbTwo).1,
   (chat_context_window_fixed_10 dbTwo).2.1,
   (chat_context_window_fixed_10 dbTwo).2.2.2.2.2.1 genStub genStub "Hello" none 3 4 rfl⟩

/-- C7: because the user turn is persisted before the 10-row history is
fetched and the orchestrator appends the current message again, the
conversation handed to the agent ends with the current user message
twice, whenever the new row is strictly the most recent one. -/
theorem agentConversation_duplicates_current_message
    (db : DB) (message : String) (tUser : Nat)
    (hts : ∀ m ∈ db.rows, m.createdAt < tUser) :
    ∃ l, agentConversation (insertMessage db "user" message tUser).2 message =
      l ++ [("user", message), ("user", message)] := by
  refine ⟨((List.insertionSort createdGe db.rows).take 9).reverse.map
      (fun msg => (if msg.role = "user" then "user" else "assistant", msg.content)), ?_⟩
  simp only [agentConversation, recentMessages, insertMessage]
  rw [insertionSort_desc_append_strictMax db.rows _ hts,
    show (10 : Nat) = 9 + 1 from rfl, List.take_succ_cons]
  simp [List.reverse_cons, List.map_append]

/-- C7 witness: on the empty store the conversation sent to the agent is
exactly the current user message twice. -/
theorem agentConversation_duplicates_current_message_witness :
    ∃ l, agentConversation (insertMessage db0 "user" "Hello" 3).2 "Hello" =
      l ++ [("user", "Hello"), ("user", "Hello")] :=
  agentConversation_duplicates_current_message db0 "Hello" 3 (by simp [db0])

/-- C5: when the agent call succeeds but its extracted text is empty,
the procedure still inserts an assistant row whose content is the empty
string — it does not skip the insert — and returns that row. -/
theorem agentChat_persists_empty_assistant
    (agent : String → List (String × String) → Except Unit AgentResult)
    (db : DB) (message : String) (tUser tAssistant : Nat) (nowIso : String)
    (r : AgentResult)
    (hm : validContent message)
    (hag : agent AGENT_SYSTEM_PROMPT
        (agentConversation (insertMessage db "user" message tUser).2 message) = .ok r)
    (hempty : extractAiResponse r = "") :
    ∃ reply, (agentChat agent db message tUser tAssistant nowIso).result = .ok reply ∧
      reply.assistantMessage = ⟨db.nextId + 1, "assistant", "", tAssistant⟩ ∧
      (agentChat agent db message tUser tAssistant nowIso).db.rows =
        db.rows ++ [⟨db.nextId, "user", message, tUser⟩,
          ⟨db.nextId + 1, "assistant", "", tAssistant⟩] := by
  have hag2 : agent AGENT_SYSTEM_PROMPT (agentConversation
      ⟨db.rows ++ [⟨db.nextId, "user", message, tUser⟩], db.nextId + 1⟩ message) =
      Except.ok r := by
    simpa [insertMessage] using hag
  refine ⟨⟨⟨db.nextId, "user", message, tUser⟩,
      ⟨db.nextId + 1, "assistant", "", tAssistant⟩,
      if (extractToolCalls r nowIso).length > 0
        then some (extractToolCalls r nowIso) else none⟩, ?_, rfl, ?_⟩
  · simp [agentChat, hm, hag2, insertMessage, hempty]
  · simp [agentChat, hm, hag2, insertMessage, hempty]

/-- C5 witness: an agent result whose last message carries no text makes
the procedure insert and return an empty-content assistant row. -/
theorem agentChat_persists_empty_assistant_witness :
    ∃ reply, (agentChat agentStubEmpty db0 "Hello" 0 1 "t0").result = .ok reply ∧
      reply.assistantMessage = ⟨1, "assistant", "", 1⟩ ∧
      (agentChat agentStubEmpty db0 "Hello" 0 1 "t0").db.rows =
        db0.rows ++ [⟨0, "user", "Hello", 0⟩, ⟨1, "assistant", "", 1⟩] :=
  agentChat_persists_empty_assistant agentStubEmpty db0 "Hello" 0 1 "t0"
    agentResultEmpty (by decide) rfl rfl

/-- Every entry the trace extraction produces keeps `output` as the
empty object, `success` as `true` and the shared timestamp. -/
theorem extractToolCalls_fields (r : AgentResult) (nowIso : String) :
    ∀ e ∈ extractToolCalls r nowIso,
      e.output = [] ∧ e.success = true ∧ e.timestamp = nowIso := by
  intro e he
  simp only [extractToolCalls, List.mem_flatMap] at he
  obtain ⟨msg, _, he⟩ := he
  cases h : msg.tool_calls with
  | none =>
    rw [h] at he
    simp at he
  | some l =>
    rw [h] at he
    simp only [List.mem_map] at he
    obtain ⟨tc, _, rfl⟩ := he
    exact ⟨rfl, rfl, rfl⟩

/-- C6: on a successful agent call the returned `toolCalls` field is
present exactly when at least one tool call was issued (otherwise it is
absent), and every entry's `output` is the empty object — never the
tool's return value — with `success` hard-coded `true` and the shared
timestamp. -/
theorem agentChat_toolCalls_presence_and_empty_output
    (agent : String → List (String × String) → Except Unit AgentResult)
    (db : DB) (message : String) (tUser tAssistant : Nat) (nowIso : String)
    (r : AgentResult)
    (hm : validContent message)
    (hag : agent AGENT_SYSTEM_PROMPT
        (agentConversation (insertMessage db "user" message tUser).2 message) = .ok r) :
    ∃ reply, (agentChat agent db message tUser tAssistant nowIso).result = .ok reply ∧
      reply.toolCalls = (if (extractToolCalls r nowIso).length > 0
        then some (extractToolCalls r nowIso) else none) ∧
      (reply.toolCalls.isSome ↔ extractToolCalls r nowIso ≠ []) ∧
      ∀ e ∈ extractToolCalls r nowIso,
        e.output = [] ∧ e.success = true ∧ e.timestamp = nowIso := by
  refine ⟨⟨⟨db.nextId, "user", message, tUser⟩,
      ⟨db.nextId + 1, "assistant", extractAiResponse r, tAssistant⟩,
      if (extractToolCalls r nowIso).length > 0
        then some (extractToolCalls r nowIso) else none⟩,
    ?_, rfl, ?_, extractToolCalls_fields r nowIso⟩
  · have hag2 : agent AGENT_SYSTEM_PROMPT (agentConversation
        ⟨db.rows ++ [⟨db.nextId, "user", message, tUser⟩], db.nextId + 1⟩ message) =
        Except.ok r := by
      simpa [insertMessage] using hag
    simp [agentChat, hm, hag2, insertMessage]
  · by_cases h : extractToolCalls r nowIso = []
    · simp [h]
    · simp [h, List.length_pos.mpr h]

/-- C6 witness: an agent run that issued one tool call yields a present
trace whose single entry has empty output. -/
theorem agentChat_toolCalls_presence_and_empty_output_witness :
    ∃ reply, (agentChat agentStub db0 "Hello" 0 1 "t0").result = .ok reply ∧
      reply.toolCalls = (if (extractToolCalls agentResult1 "t0").length > 0
        then some (extractToolCalls agentResult1 "t0") else none) ∧
      (reply.toolCalls.isSome ↔ extractToolCalls agentResult1 "t0" ≠ []) ∧
      ∀ e ∈ extractToolCalls agentResult1 "t0",
        e.output = [] ∧ e.success = true ∧ e.timestamp = "t0" :=
  agentChat_toolCalls_presence_and_empty_output agentStub db0 "Hello" 0 1 "t0"
    agentResult1 (by decide) rfl
